import Mathlib

/-!
Verification of the batch utilities and memoization primitives of
`nonechucks/utils.py` against its natural-language specification.

The development is a shallow embedding: Python values handled by the batch
helpers are modelled by the inductive type `Val`, Python exceptions by
`PyErr`, and every fallible operation returns `Except PyErr _`.  The three
batch functions `collate_batches`, `batch_len` and `slice_batch` are
translated branch by branch from the source; external capabilities of the
tensor library (`torch.cat`, `default_collate`, iteration) are either
modelled structurally (`torch_cat`, `pyIter`) or taken as function
parameters (`default_collate`).
-/

set_option autoImplicit false

/-- The runtime type tags relevant to the dispatch performed by
`utils.py`: `torch.Tensor`, `str` (the `string_classes` of `torch._six`),
`list`, `tuple`, `dict` (`collections.Mapping`), and a non-container
scalar (`int`) standing for every value that is none of the recognised
batch shapes. -/
inductive PyType where
  | tensor
  | str
  | list
  | tuple
  | map
  | int
deriving DecidableEq

/-- Model of the Python values the batch helpers operate on.

* `tensor rows` is a dense numeric block whose leading axis indexes the
  samples (each `Int` entry stands for one sample row);
* `str` is a text scalar;
* `list` and `tuple` are the ordered sequence containers
  (`collections.Sequence` covers both, `isinstance(-, list)` only the
  first);
* `map` is a string-keyed mapping (`collections.Mapping`) from field name
  to per-field batch, as in the spec's data model;
* `int` is a plain scalar, the representative of values that are none of
  the recognised batch shapes. -/
inductive Val where
  | tensor (rows : List Int)
  | str (s : String)
  | list (xs : List Val)
  | tuple (xs : List Val)
  | map (entries : List (String × Val))
  | int (n : Int)

/-- The runtime type of a value, as reported by Python's `type(...)`. -/
def Val.ty : Val → PyType
  | .tensor _ => .tensor
  | .str _ => .str
  | .list _ => .list
  | .tuple _ => .tuple
  | .map _ => .map
  | .int _ => .int

/-- `isinstance(v, torch.Tensor)`. -/
def Val.isTensor : Val → Bool
  | .tensor _ => true
  | _ => false

/-- `isinstance(v, collections.Sequence)`: strings, lists and tuples are
the sequence containers of the model. -/
def Val.isSequence : Val → Bool
  | .str _ => true
  | .list _ => true
  | .tuple _ => true
  | _ => false

/-- `isinstance(v, collections.Mapping)`. -/
def Val.isMapping : Val → Bool
  | .map _ => true
  | _ => false

/-- The Python exceptions the embedded code can raise.
`typeErrorBatchShape` is the `TypeError` raised at the end of
`collate_batches`; it records the runtime type of the offending first
batch, mirroring `error_msg.format(type(batches[0]))`. -/
inductive PyErr where
  | indexError
  | keyError
  | typeErrorBatchShape (t : PyType)
  | typeErrorCat
  | typeErrorNotIterable
  | typeErrorNoLen
  | typeErrorNotSliceable
  | typeErrorBadIndex
  | typeErrorNotSubscriptable
  | typeErrorUnhashable
  | typeErrorMissingArg
deriving DecidableEq

/-- Does the error name an unsupported batch shape (the `TypeError` of
`collate_batches`)? -/
def PyErr.isShapeError : PyErr → Bool
  | .typeErrorBatchShape _ => true
  | _ => false

/-- Python's half-open slice `xs[start:end]` for absent or non-negative
bounds: a `none` bound means "from the beginning" resp. "to the end", and
over-long bounds are clamped.  (The claims under study never use negative
bounds, so those are left out of the model.) -/
def sliceList {α : Type} (xs : List α) (start stop : Option Nat) : List α :=
  ((xs.take (stop.getD xs.length)).drop (start.getD 0))

/-- Python's `len(v)`: defined for tensors (leading axis), strings,
sequences and mappings; a `TypeError` for scalars. -/
def pyLen (v : Val) : Except PyErr Nat :=
  match v with
  | .tensor rows => .ok rows.length
  | .str s => .ok s.length
  | .list xs => .ok xs.length
  | .tuple xs => .ok xs.length
  | .map es => .ok es.length
  | .int _ => .error .typeErrorNotSubscriptable

/-- Structural list indexing, `xs[i]` for `0 <= i < len(xs)` with `none`
for an out-of-range index. -/
def listGet {α : Type} : List α → Nat → Option α
  | [], _ => none
  | a :: _, 0 => some a
  | _ :: as, n + 1 => listGet as n

/-- Python's `v[i]` for a non-negative integer index `i`.  Indexing a
string yields a one-character string; indexing a string-keyed mapping
with an integer raises `KeyError` (no such key exists); indexing a scalar
raises `TypeError`. -/
def pyGetItemInt (v : Val) (i : Nat) : Except PyErr Val :=
  match v with
  | .tensor rows =>
    match listGet rows i with
    | some r => .ok (.int r)
    | none => .error .indexError
  | .str s =>
    match listGet s.data i with
    | some c => .ok (.str (String.mk [c]))
    | none => .error .indexError
  | .list xs =>
    match listGet xs i with
    | some x => .ok x
    | none => .error .indexError
  | .tuple xs =>
    match listGet xs i with
    | some x => .ok x
    | none => .error .indexError
  | .map _ => .error .keyError
  | .int _ => .error .typeErrorNotSubscriptable

/-- First value bound to key `k` in an association list (Python mappings
have unique keys, so this is the mapping's lookup). -/
def lookupStr (es : List (String × Val)) (k : String) : Option Val :=
  match es with
  | [] => none
  | e :: rest => if e.1 = k then some e.2 else lookupStr rest k

/-- Python's `v[k]` for a string key `k`: mapping lookup, `KeyError` when
the key is absent, `TypeError` when `v` is not a mapping. -/
def pyGetItemStr (v : Val) (k : String) : Except PyErr Val :=
  match v with
  | .map es =>
    match lookupStr es k with
    | some x => .ok x
    | none => .error .keyError
  | _ => .error .typeErrorBadIndex

/-- Python's `v[start:stop]` slice: defined for tensors (leading axis),
strings and sequence containers; a `TypeError` for mappings and
scalars. -/
def pyGetSlice (v : Val) (start stop : Option Nat) : Except PyErr Val :=
  match v with
  | .tensor rows => .ok (.tensor (sliceList rows start stop))
  | .str s => .ok (.str (String.mk (sliceList s.data start stop)))
  | .list xs => .ok (.list (sliceList xs start stop))
  | .tuple xs => .ok (.tuple (sliceList xs start stop))
  | .map _ => .error .typeErrorNotSliceable
  | .int _ => .error .typeErrorNotSliceable

/-- Python iteration `iter(v)` materialised as a list: tensors yield their
rows, strings their characters, sequences their elements, mappings their
keys; scalars are not iterable. -/
def pyIter (v : Val) : Except PyErr (List Val) :=
  match v with
  | .tensor rows => .ok (rows.map Val.int)
  | .str s => .ok (s.data.map (fun c => Val.str (String.mk [c])))
  | .list xs => .ok xs
  | .tuple xs => .ok xs
  | .map es => .ok (es.map (fun e => Val.str e.1))
  | .int _ => .error .typeErrorNotIterable

/-- Left-to-right effectful map over a list, the evaluation order of a
Python comprehension: the first raised exception aborts the whole
construction. -/
def mapE {α β : Type} (f : α → Except PyErr β) : List α → Except PyErr (List β)
  | [] => .ok []
  | a :: as =>
    match f a with
    | .error e => .error e
    | .ok b =>
      match mapE f as with
      | .error e => .error e
      | .ok bs => .ok (b :: bs)

/-- `torch.cat(batches, 0)`: every element must be a tensor; the result
stacks all rows along the leading axis. -/
def torch_cat (batches : List Val) : Except PyErr Val :=
  match mapE (fun b =>
      match b with
      | .tensor rows => Except.ok rows
      | _ => Except.error PyErr.typeErrorCat) batches with
  | .error e => .error e
  | .ok rowss => .ok (.tensor rowss.flatten)

/-- `list(chain(*batches))`, the branch of `collate_batches` taken when
the first batch is a `collections.Sequence`: every batch is iterated and
the streams are concatenated into one list. -/
def seqChain (batches : List Val) : Except PyErr Val :=
  match mapE pyIter batches with
  | .error e => .error e
  | .ok parts => .ok (.list parts.flatten)

/-- The mapping branch of `collate_batches`:
`{key: default_collate([d[key] for d in batches]) for key in batches[0]}`.
Note that the source applies the module-level `default_collate` here, not
the `collate_fn` parameter. -/
def collateMapping (default_collate : List Val → Val) (batches : List Val)
    (keys : List (String × Val)) : Except PyErr Val :=
  match mapE (fun kv =>
      match mapE (fun d => pyGetItemStr d kv.1) batches with
      | .error e => Except.error e
      | .ok vals => Except.ok (kv.1, default_collate vals)) keys with
  | .error e => .error e
  | .ok entries => .ok (.map entries)

/-- `collate_batches(batches, collate_fn=default_collate)` from
`utils.py`.  The external "recursively batch heterogeneous samples"
capability (`torch`'s `default_collate`) is passed explicitly as the
first argument, and the `collate_fn` parameter of the source's signature
as the second.  Dispatch follows the source: `torch.Tensor`, then
`collections.Sequence` (strings, lists, tuples), then
`collections.Mapping`, otherwise the shape `TypeError` naming the type of
`batches[0]`.  An empty argument list fails on the `batches[0]` probe. -/
def collate_batches (default_collate collate_fn : List Val → Val)
    (batches : List Val) : Except PyErr Val :=
  match batches with
  | [] => .error .indexError
  | b0 :: _ =>
    match b0 with
    | .tensor _ => torch_cat batches
    | .str _ => seqChain batches
    | .list _ => seqChain batches
    | .tuple _ => seqChain batches
    | .map es => collateMapping default_collate batches es
    | .int n => .error (.typeErrorBatchShape (Val.int n).ty)

/-- `batch_len(batch)` from `utils.py`, translated branch by branch:

* `isinstance(batch, list)` (only the concrete `list` type!): return
  `len(batch)` when `batch[0]` is a text scalar, else `len(batch[0])`;
* `isinstance(batch, collections.Mapping)`: return
  `len(batch[list(batch.keys())[0]])`;
* otherwise `len(batch)`. -/
def batch_len (batch : Val) : Except PyErr Nat :=
  match batch with
  | .list xs =>
    match pyGetItemInt (.list xs) 0 with
    | .error e => .error e
    | .ok (.str _) => .ok xs.length
    | .ok first => pyLen first
  | .map es =>
    match es with
    | [] => .error .indexError
    | kv :: _ => pyLen kv.2
  | b => pyLen b

/-- `slice_batch(batch, start, end)` from `utils.py`, translated branch by
branch:

* `isinstance(batch, list)`: slice the list itself when `batch[0]` is a
  text scalar, else slice every sample;
* `elif isinstance(batch[0], collections.Mapping)`: note that the source
  probes `batch[0]` here, so a string-keyed mapping batch raises
  `KeyError` before the branch body
  (`{key: batch[key][start:end] for key in batch}`) can run; the body is
  kept for fidelity and iterates the batch's keys when the batch is a
  mapping, failing with a `TypeError` otherwise (an integer-indexed
  container reached with a non-integer key);
* otherwise slice the batch's leading axis directly. -/
def slice_batch (batch : Val) (start stop : Option Nat) : Except PyErr Val :=
  match batch with
  | .list xs =>
    match pyGetItemInt (.list xs) 0 with
    | .error e => .error e
    | .ok (.str _) => pyGetSlice (.list xs) start stop
    | .ok _ =>
      match mapE (fun sample => pyGetSlice sample start stop) xs with
      | .error e => .error e
      | .ok samples => .ok (.list samples)
  | b =>
    match pyGetItemInt b 0 with
    | .error e => .error e
    | .ok (.map _) =>
      match b with
      | .map es =>
        match mapE (fun kv =>
            match pyGetSlice kv.2 start stop with
            | .error e => Except.error e
            | .ok v => Except.ok (kv.1, v)) es with
        | .error e => .error e
        | .ok entries => .ok (.map entries)
      | _ => .error .typeErrorBadIndex
    | .ok _ => pyGetSlice b start stop

/-- The concrete mapping batch of the spec's test scenario:
`{"x": [1, 2, 3, 4], "y": [10, 20, 30, 40]}`. -/
def mapBatch : Val :=
  .map [("x", .list [.int 1, .int 2, .int 3, .int 4]),
        ("y", .list [.int 10, .int 20, .int 30, .int 40])]

/-- Sanity check of the spec's scenario: the mapping batch has sample
count `4` (the length of the value under the first key). -/
theorem mapBatch_len : batch_len mapBatch = .ok 4 := rfl

/-- Model of the Python values that flow through the memoizing forwarder
(instances, positional arguments, keyword-argument values, results).
`obj id canHash` is a generic object identified by reference identity;
`canHash := false` models an unhashable object (a list, a dict, or an
instance of a class whose hashing is broken). -/
inductive PyVal where
  | int (n : Int)
  | str (s : String)
  | obj (id : Nat) (canHash : Bool)
deriving DecidableEq

/-- Is the value usable as (part of) a dictionary key?  Numbers and
strings always are; generic objects according to their `canHash` flag. -/
def PyVal.hashable : PyVal → Bool
  | .int _ => true
  | .str _ => true
  | .obj _ h => h

/-- The type of the wrapped method: it receives the instance, the
remaining positional arguments and the keyword arguments.  The claims
concern pure methods, so the model's functions are pure. -/
abbrev PyFunc : Type := PyVal → List PyVal → List (String × PyVal) → PyVal

/-- The memoization cache key,
`(instance, args, frozenset(kw.items()))`: the instance, the positional
argument tuple and the canonicalised keyword items. -/
abbrev MKey : Type := PyVal × List PyVal × List (String × PyVal)

/-- Order-preserving insertion, used to canonicalise keyword items. -/
def insertKw (p : String × PyVal) : List (String × PyVal) → List (String × PyVal)
  | [] => [p]
  | q :: qs => if p.1 ≤ q.1 then p :: q :: qs else q :: insertKw p qs

/-- `frozenset(kw.items())` canonicalised as a name-sorted list: Python
keyword arguments have pairwise distinct names, so set equality of the
item sets coincides with equality of the name-sorted lists. -/
def sortKw : List (String × PyVal) → List (String × PyVal)
  | [] => []
  | p :: ps => insertKw p (sortKw ps)

/-- Building the cache key hashes the instance, every positional argument
and every keyword value (keyword names are strings and always hashable);
this predicate says that all of them are hashable. -/
def hashableKey (inst : PyVal) (args : List PyVal)
    (kw : List (String × PyVal)) : Bool :=
  inst.hashable && args.all PyVal.hashable && kw.all (fun p => p.2.hashable)

/-- `self.cache[key]` on the model's association-list cache. -/
def lookupCache (cache : List (MKey × PyVal)) (key : MKey) : Option PyVal :=
  match cache with
  | [] => none
  | e :: rest => if e.1 = key then some e.2 else lookupCache rest key

/-- The `memoize` decorator object: the wrapped function `func`, the
process-wide `cache` dictionary shared by all instances of the decorated
class, and the boolean `memoize` switch.  `__init__` sets
`cache = {}` and `memoize = True`. -/
structure Memoize where
  func : PyFunc
  cache : List (MKey × PyVal)
  memoize : Bool

/-- `memoize.__init__(func)`: empty cache, caching enabled. -/
def Memoize.init (func : PyFunc) : Memoize :=
  { func := func, cache := [], memoize := true }

/-- The forwarding proxy `transparent_partial(func, *args, **kw)` built by
`memoize.__get__`: the wrapped target (here always the decorator object)
plus the prebound positional and keyword arguments. -/
structure transparent_partial where
  func : Memoize
  args : List PyVal
  kw : List (String × PyVal)

/-- The two possible results of attribute access on a memoize-decorated
method: the raw underlying function (class access) or a forwarding proxy
(instance access). -/
inductive BoundMethod where
  | plain (f : PyFunc)
  | wrapped (w : transparent_partial)

/-- `memoize.__get__(self, instance, owner)`: with no instance the raw
function `self.func`; with an instance the proxy
`transparent_partial(self, instance)` — the decorator as the wrapped
callable with the instance as the sole prebound positional argument. -/
def Memoize.get (self : Memoize) (inst : Option PyVal) : BoundMethod :=
  match inst with
  | none => .plain self.func
  | some i => .wrapped { func := self, args := [i], kw := [] }

/-- Calling the raw function obtained from class access,
`Obj.add_to(...)`: the first positional argument is consumed as the
instance parameter, the function is applied directly.  No decorator state
appears anywhere in this computation — such calls are never cached. -/
def callPlain (f : PyFunc) (args : List PyVal)
    (kw : List (String × PyVal)) : Except PyErr PyVal :=
  match args with
  | [] => .error .typeErrorMissingArg
  | a :: rest => .ok (f a rest kw)

/-- `memoize.__call__(self, instance, *args, **kw)`.  The result triple
also reports the decorator state after the call and how many times the
underlying function was invoked during the call (`0` on a cache hit, `1`
otherwise).  Following the source: when the `memoize` flag is off the
function is invoked unconditionally and the cache is not consulted or
modified; otherwise the key is built (a `TypeError` when any key
component is unhashable), a cache hit returns the stored result, and a
miss invokes the function and stores the result. -/
def Memoize.call (self : Memoize) (inst : PyVal) (args : List PyVal)
    (kw : List (String × PyVal)) : Except PyErr (PyVal × Memoize × Nat) :=
  if self.memoize = false then
    .ok (self.func inst args kw, self, 1)
  else if hashableKey inst args kw = false then
    .error .typeErrorUnhashable
  else
    match lookupCache self.cache (inst, args, sortKw kw) with
    | some res => .ok (res, self, 0)
    | none =>
      let res := self.func inst args kw
      .ok (res, { self with cache := self.cache ++ [((inst, args, sortKw kw), res)] }, 1)

/-- `transparent_partial.__call__(*args, **kw)` for the proxy produced by
`memoize.__get__`: the target is called with the prebound positional
arguments followed by the call-time ones (the first of which is the
instance) and the merged keyword arguments. -/
def transparent_partial.call (w : transparent_partial) (args : List PyVal)
    (kw : List (String × PyVal)) : Except PyErr (PyVal × Memoize × Nat) :=
  match w.args ++ args with
  | [] => .error .typeErrorMissingArg
  | inst :: rest => Memoize.call w.func inst rest (w.kw ++ kw)

/-- The attribute state relevant to `transparent_partial.__setattr__`:
the proxy's own `__dict__` (which after construction holds exactly the
three internal slots) and the attribute dictionary of the wrapped
function object (`self.__dict__['__func']`).  The forwarding target is
modelled as the wrapped function object itself, which is accurate for
every attribute name other than the function slot `"__func"` (overwriting
that slot would redirect subsequent forwarding). -/
structure TPAttrs where
  dict : List (String × PyVal)
  funcAttrs : List (String × PyVal)

/-- Is `key` present in the dictionary (`key in d`)? -/
def hasKey (d : List (String × PyVal)) (k : String) : Bool :=
  d.any (fun p => p.1 = k)

/-- Python dictionary assignment `d[k] = v`: replace in place when the
key exists, append otherwise. -/
def setKey (d : List (String × PyVal)) (k : String) (v : PyVal) :
    List (String × PyVal) :=
  if hasKey d k then d.map (fun p => if p.1 = k then (k, v) else p)
  else d ++ [(k, v)]

/-- `transparent_partial.__setattr__(self, key, value)`, translated
statement by statement: when `key` is one of the proxy's own `__dict__`
slots the slot is updated, and then — with no early return in the source —
the write is unconditionally forwarded to the wrapped function object via
`setattr(self.__dict__['__func'], key, value)`. -/
def tp_setattr (s : TPAttrs) (key : String) (v : PyVal) : TPAttrs :=
  { dict := if hasKey s.dict key then setKey s.dict key v else s.dict,
    funcAttrs := setKey s.funcAttrs key v }

/-- A proxy attribute state as left by `transparent_partial.__init__`:
the three internal slots in the proxy's `__dict__` (with placeholder
contents) and a wrapped function object carrying no extra attributes. -/
def tpInit : TPAttrs :=
  { dict := [("__func", .obj 0 true), ("__args", .obj 1 true), ("__kw", .obj 2 true)],
    funcAttrs := [] }

/-- A concrete stand-in for the external `default_collate` capability,
used to instantiate theorems: it collects the gathered per-key values
into a list. -/
def dcStub : List Val → Val := Val.list

/-- A concrete user-supplied `collate_fn`, chosen to disagree with
`dcStub` on every input. -/
def cfStub : List Val → Val := fun _ => Val.int 99

/-- The tensor batch `[1, 2, 3]` (three sample rows). -/
def tensorBatch : Val := .tensor [1, 2, 3]

/-- The text-scalar sequence batch `["cat", "dog", "bird"]` of the spec's
test scenario. -/
def strListBatch : Val := .list [.str "cat", .str "dog", .str "bird"]

/-- A sequence batch of structured samples: two elements, each a tensor
with three sample rows. -/
def structListBatch : Val := .list [.tensor [1, 2, 3], .tensor [4, 5, 6]]

/-- The same structured sequence batch as a tuple, which is a
`collections.Sequence` but not a `list`. -/
def tupleBatch : Val := .tuple [.tensor [1, 2, 3], .tensor [4, 5, 6]]

/-- Claim C1: the claim says the per-key values of a merged mapping batch
are produced by the supplied `collate_fn`; the source's mapping branch
instead invokes the module-level `default_collate` and never uses its
`collate_fn` parameter.  At the failing input
`[{"x": [1]}, {"x": [2]}]` with a `collate_fn` that differs from
`default_collate`, the result is built with `default_collate`
(`dcStub`), not with the supplied function (`cfStub`). -/
theorem collate_batches_ignores_supplied_collate_fn :
    collate_batches dcStub cfStub
        [.map [("x", .list [.int 1])], .map [("x", .list [.int 2])]]
      = .ok (.map [("x", dcStub [.list [.int 1], .list [.int 2]])])
  ∧ collate_batches dcStub cfStub
        [.map [("x", .list [.int 1])], .map [("x", .list [.int 2])]]
      ≠ .ok (.map [("x", cfStub [.list [.int 1], .list [.int 2]])]) := by
  constructor
  · rfl
  · intro h
    have h2 : (Except.ok (Val.map [("x", Val.list [Val.list [Val.int 1], Val.list [Val.int 2]])])
        : Except PyErr Val) = .ok (.map [("x", Val.int 99)]) := h
    simp at h2

/-- Claim C2: the claim says slicing the mapping batch
`{"x": [1,2,3,4], "y": [10,20,30,40]}` to `[1, 3)` yields
`{"x": [2,3], "y": [20,30]}`; the source probes `batch[0]` to detect the
mapping case, which raises `KeyError` on a string-keyed mapping, so the
call fails instead of returning the sliced mapping. -/
theorem slice_batch_mapping_raises_keyerror :
    slice_batch mapBatch (some 1) (some 3) = .error .keyError
  ∧ slice_batch mapBatch (some 1) (some 3)
      ≠ .ok (.map [("x", .list [.int 2, .int 3]),
                   ("y", .list [.int 20, .int 30])]) := by
  constructor
  · rfl
  · intro h
    have h2 : (Except.error PyErr.keyError : Except PyErr Val)
        = .ok (.map [("x", Val.list [.int 2, .int 3]),
                     ("y", Val.list [.int 20, .int 30])]) := h
    simp at h2

/-- Claim C3: the claim says `slice(batch, None, None)` returns the batch
unchanged for every non-empty batch of the three shapes.  It does for the
tensor shape and for both kinds of sequence shape, but for a string-keyed
mapping batch the `batch[0]` probe raises `KeyError`, so the mapping case
of the claim fails on the code. -/
theorem slice_batch_full_slice_fails_on_mapping :
    slice_batch tensorBatch none none = .ok tensorBatch
  ∧ slice_batch strListBatch none none = .ok strListBatch
  ∧ slice_batch structListBatch none none = .ok structListBatch
  ∧ slice_batch mapBatch none none = .error .keyError := by
  exact ⟨rfl, rfl, rfl, rfl⟩

/-- Claim C4, counterexample: a tuple is a recognised sequence container
(`collections.Sequence`, the class `collate_batches` itself dispatches
on), and `tupleBatch` holds two structured samples whose first element
has length `3`; the claim predicts `batch_len` returns `3`, but the
source only dispatches on the concrete `list` type, so the tuple falls
through to `len(batch)` and yields `2`. -/
theorem batch_len_tuple_counterexample :
    batch_len tupleBatch = .ok 2 ∧ batch_len tupleBatch ≠ .ok 3 := by
  constructor
  · rfl
  · intro h
    have h2 : (Except.ok 2 : Except PyErr Nat) = .ok 3 := h
    simp at h2

/-- Claim C4, amended: the sequence dispatch of `batch_len` applies only
to the concrete `list` type — for a non-empty list it returns the list's
own length when the first element is a text scalar and the length of the
first element otherwise — while every other sequence container (tuples
included) falls through to the generic `len(batch)` of the container
itself. -/
theorem batch_len_sequence_dispatch (x : Val) (xs ys : List Val) :
    batch_len (.list (x :: xs))
      = (match x with
         | .str _ => .ok (xs.length + 1)
         | _ => pyLen x)
  ∧ batch_len (.tuple ys) = .ok ys.length := by
  constructor
  · cases x <;> rfl
  · rfl

/-- If the effectful comprehension fails, some element caused exactly that
failure. -/
theorem mapE_error_mem {α β : Type} (f : α → Except PyErr β) (l : List α)
    (e : PyErr) (h : mapE f l = .error e) : ∃ a ∈ l, f a = .error e := by
  induction l with
  | nil => simp [mapE] at h
  | cons a as ih =>
    rw [mapE] at h
    cases hfa : f a with
    | error e2 =>
      rw [hfa] at h
      exact ⟨a, by simp, by cases h; exact hfa⟩
    | ok b =>
      rw [hfa] at h
      cases hrec : mapE f as with
      | error e2 =>
        rw [hrec] at h
        cases h
        obtain ⟨a2, ha2, hfa2⟩ := ih hrec
        exact ⟨a2, by simp [ha2], hfa2⟩
      | ok bs => rw [hrec] at h; cases h

/-- The only exception `torch.cat` raises in the model is its own
`TypeError` for a non-tensor element; in particular it never raises the
unsupported-batch-shape error. -/
theorem torch_cat_error (batches : List Val) (e : PyErr)
    (h : torch_cat batches = .error e) : e = .typeErrorCat := by
  rw [torch_cat] at h
  cases hm : mapE (fun b =>
      match b with
      | .tensor rows => Except.ok rows
      | _ => Except.error PyErr.typeErrorCat) batches with
  | error e2 =>
    rw [hm] at h
    cases h
    obtain ⟨a, _, hfa⟩ := mapE_error_mem _ _ _ hm
    cases a <;> simp at hfa <;> exact hfa.symm
  | ok rowss => rw [hm] at h; cases h

/-- Iteration fails only on a non-iterable scalar, with its own
`TypeError`. -/
theorem pyIter_error (v : Val) (e : PyErr) (h : pyIter v = .error e) :
    e = .typeErrorNotIterable := by
  cases v <;> simp [pyIter] at h <;> try exact h.symm

/-- The sequence branch of `collate_batches` never raises the
unsupported-batch-shape error. -/
theorem seqChain_error (batches : List Val) (e : PyErr)
    (h : seqChain batches = .error e) : e = .typeErrorNotIterable := by
  rw [seqChain] at h
  cases hm : mapE pyIter batches with
  | error e2 =>
    rw [hm] at h
    cases h
    obtain ⟨a, _, hfa⟩ := mapE_error_mem _ _ _ hm
    exact pyIter_error _ _ hfa
  | ok parts => rw [hm] at h; cases h

/-- String-key item access fails only with `KeyError` or the non-mapping
`TypeError`; never with the unsupported-batch-shape error. -/
theorem pyGetItemStr_error (v : Val) (k : String) (e : PyErr)
    (h : pyGetItemStr v k = .error e) : e.isShapeError = false := by
  cases v <;> simp [pyGetItemStr] at h
  case map es =>
    cases hl : lookupStr es k with
    | some x => rw [hl] at h; cases h
    | none => rw [hl] at h; cases h; rfl
  all_goals (cases h; rfl)

/-- The mapping branch of `collate_batches` never raises the
unsupported-batch-shape error. -/
theorem collateMapping_error (dc : List Val → Val) (batches : List Val)
    (keys : List (String × Val)) (e : PyErr)
    (h : collateMapping dc batches keys = .error e) : e.isShapeError = false := by
  rw [collateMapping] at h
  cases hm : mapE (fun kv =>
      match mapE (fun d => pyGetItemStr d kv.1) batches with
      | .error e => Except.error e
      | .ok vals => Except.ok (kv.1, dc vals)) keys with
  | error e2 =>
    rw [hm] at h
    cases h
    obtain ⟨kv, _, hkv⟩ := mapE_error_mem _ _ _ hm
    cases hin : mapE (fun d => pyGetItemStr d kv.1) batches with
    | error e3 =>
      rw [hin] at hkv
      cases hkv
      obtain ⟨d, _, hd⟩ := mapE_error_mem _ _ _ hin
      exact pyGetItemStr_error _ _ _ hd
    | ok vals => rw [hin] at hkv; cases hkv
  | ok entries => rw [hm] at h; cases h

/-- Claim C9: for a non-empty batch list, `collate_batches` raises the
unsupported-batch-shape `TypeError` — whose payload names the runtime
type of the first batch — exactly when the first batch is neither a
tensor, nor a sequence, nor a mapping; when the first batch has one of
the three supported shapes, no error it raises is the shape error. -/
theorem collate_batches_shape_error_iff (dc cf : List Val → Val) (b0 : Val)
    (rest : List Val) :
    ((b0.isTensor || b0.isSequence || b0.isMapping) = false →
      collate_batches dc cf (b0 :: rest) = .error (.typeErrorBatchShape b0.ty))
  ∧ ((b0.isTensor || b0.isSequence || b0.isMapping) = true →
      ∀ e, collate_batches dc cf (b0 :: rest) = .error e →
        e.isShapeError = false) := by
  constructor
  · intro hunsup
    cases b0 <;> simp [Val.isTensor, Val.isSequence, Val.isMapping] at hunsup
    rfl
  · intro hsup e h
    cases b0 <;> simp [Val.isTensor, Val.isSequence, Val.isMapping] at hsup <;>
      rw [collate_batches] at h
    case tensor rows =>
      rw [torch_cat_error _ _ h]; rfl
    case str s =>
      rw [seqChain_error _ _ h]; rfl
    case list xs =>
      rw [seqChain_error _ _ h]; rfl
    case tuple xs =>
      rw [seqChain_error _ _ h]; rfl
    case map es =>
      exact collateMapping_error _ _ _ _ h

/-- Witness for claim C9's theorem at concrete inputs: the scalar batch
`5` is none of the three supported shapes, and `collate_batches` rejects
it with the shape error naming its type. -/
theorem collate_batches_shape_error_iff_witness :
    ((Val.int 5).isTensor || (Val.int 5).isSequence || (Val.int 5).isMapping) = false
  ∧ collate_batches dcStub cfStub [.int 5]
      = .error (.typeErrorBatchShape (Val.int 5).ty) :=
  ⟨by decide, (collate_batches_shape_error_iff dcStub cfStub (.int 5) []).1 (by decide)⟩

/-- A concrete pure method used to instantiate the memoization theorems:
it returns the number of positional arguments it was given. -/
def sampleFunc : PyFunc := fun _ args _ => PyVal.int args.length

/-- Claim C5: starting from a freshly decorated method (empty cache,
caching flag on), a first call with instance `i` invokes the underlying
function (count `1`); a second call with the same instance and the same
arguments is served from the cache (count `0`, same result, state
unchanged) — so across the two calls the function ran exactly once; and a
call with a different instance `j` and otherwise identical arguments
invokes the function again (count `1`). -/
theorem memoize_caches_per_instance (f : PyFunc) (i j : PyVal)
    (args : List PyVal) (kw : List (String × PyVal))
    (hi : hashableKey i args kw = true) (hj : hashableKey j args kw = true)
    (hij : i ≠ j) :
    ∃ r d1, Memoize.call (Memoize.init f) i args kw = .ok (r, d1, 1)
      ∧ Memoize.call d1 i args kw = .ok (r, d1, 0)
      ∧ ∃ r2 d2, Memoize.call d1 j args kw = .ok (r2, d2, 1) := by
  refine ⟨f i args kw,
    { func := f, cache := [((i, args, sortKw kw), f i args kw)], memoize := true },
    ?_, ?_, f j args kw,
    { func := f,
      cache := [((i, args, sortKw kw), f i args kw),
                ((j, args, sortKw kw), f j args kw)],
      memoize := true }, ?_⟩
  · simp [Memoize.call, Memoize.init, lookupCache, hi]
  · simp [Memoize.call, lookupCache, hi]
  · simp [Memoize.call, lookupCache, hj, Prod.ext_iff, hij, Ne.symm hij]

/-- Witness for claim C5's theorem at concrete inputs: two distinct
hashable instances and one positional argument. -/
theorem memoize_caches_per_instance_witness :
    hashableKey (.obj 0 true) [.int 5] [] = true
  ∧ hashableKey (.obj 1 true) [.int 5] [] = true
  ∧ (PyVal.obj 0 true : PyVal) ≠ .obj 1 true
  ∧ (∃ r d1,
      Memoize.call (Memoize.init sampleFunc) (.obj 0 true) [.int 5] [] = .ok (r, d1, 1)
      ∧ Memoize.call d1 (.obj 0 true) [.int 5] [] = .ok (r, d1, 0)
      ∧ ∃ r2 d2, Memoize.call d1 (.obj 1 true) [.int 5] [] = .ok (r2, d2, 1)) :=
  ⟨by decide, by decide, by decide,
    memoize_caches_per_instance sampleFunc (.obj 0 true) (.obj 1 true) [.int 5] []
      (by decide) (by decide) (by decide)⟩

/-- Claim C6: attribute access on an instance yields the forwarding proxy
wrapping the decorator with that instance as the prebound positional
argument; access on the class itself yields the raw underlying function,
and a call of that raw function is a direct application in which no
decorator state (in particular no cache) takes part. -/
theorem memoize_get_binding (d : Memoize) (i : PyVal) :
    Memoize.get d (some i) = .wrapped { func := d, args := [i], kw := [] }
  ∧ Memoize.get d none = .plain d.func
  ∧ ∀ (a : PyVal) (rest : List PyVal) (kw : List (String × PyVal)),
      callPlain d.func (a :: rest) kw = .ok (d.func a rest kw) :=
  ⟨rfl, rfl, fun _ _ _ => rfl⟩

/-- Claim C7: with the `memoize` flag off, every call invokes the
underlying function unconditionally (count `1`), returns its direct
result, and leaves the decorator — including its cache — unchanged. -/
theorem memoize_disabled_bypasses_cache (d : Memoize) (inst : PyVal)
    (args : List PyVal) (kw : List (String × PyVal))
    (h : d.memoize = false) :
    Memoize.call d inst args kw = .ok (d.func inst args kw, d, 1) := by
  simp [Memoize.call, h]

/-- A decorator state with the caching flag off and a non-empty cache,
used to witness claim C7's theorem (the call bypasses the cached entry
and leaves it in place). -/
def disabledMemo : Memoize :=
  { func := sampleFunc,
    cache := [(((.obj 0 true), [.int 5], []), .int 1)],
    memoize := false }

/-- Witness for claim C7's theorem at concrete inputs: even though the
cache holds an entry for exactly this key, the disabled decorator
re-invokes the function and returns the state unchanged. -/
theorem memoize_disabled_bypasses_cache_witness :
    disabledMemo.memoize = false
  ∧ Memoize.call disabledMemo (.obj 0 true) [.int 5] []
      = .ok (sampleFunc (.obj 0 true) [.int 5] [], disabledMemo, 1) :=
  ⟨rfl, memoize_disabled_bypasses_cache disabledMemo (.obj 0 true) [.int 5] [] rfl⟩

/-- `hashableKey` is false exactly when the instance, some positional
argument, or some keyword value is unhashable. -/
theorem hashableKey_false_iff (inst : PyVal) (args : List PyVal)
    (kw : List (String × PyVal)) :
    hashableKey inst args kw = false
  ↔ (inst.hashable = false ∨ (∃ a ∈ args, a.hashable = false)
      ∨ (∃ p ∈ kw, p.2.hashable = false)) := by
  constructor
  · intro h
    by_contra hc
    push_neg at hc
    obtain ⟨h1, h2, h3⟩ := hc
    have hi : inst.hashable = true := by
      cases hhi : inst.hashable with
      | true => rfl
      | false => exact absurd hhi h1
    have ha : args.all PyVal.hashable = true := by
      rw [List.all_eq_true]
      intro a hmem
      cases hha : a.hashable with
      | true => rfl
      | false => exact absurd hha (h2 a hmem)
    have hk : kw.all (fun p => p.2.hashable) = true := by
      rw [List.all_eq_true]
      intro p hmem
      cases hhp : p.2.hashable with
      | true => rfl
      | false => exact absurd hhp (h3 p hmem)
    rw [hashableKey, hi, ha, hk] at h
    simp at h
  · intro h
    rcases h with h1 | ⟨a, hmem, ha⟩ | ⟨p, hmem, hp⟩
    · simp [hashableKey, h1]
    · have hall : args.all PyVal.hashable = false :=
        List.all_eq_false.mpr ⟨a, hmem, by simp [ha]⟩
      simp [hashableKey, hall]
    · have hall : kw.all (fun p => p.2.hashable) = false :=
        List.all_eq_false.mpr ⟨p, hmem, by simp [hp]⟩
      simp [hashableKey, hall]

/-- Claim C8: with the caching flag on, a call fails with the
"unhashable" `TypeError` exactly when the instance, some positional
argument, or some keyword argument value is unhashable — all of them are
hashed to build the cache key, and when all are hashable the call
succeeds. -/
theorem memoize_call_unhashable_iff (d : Memoize) (inst : PyVal)
    (args : List PyVal) (kw : List (String × PyVal))
    (h : d.memoize = true) :
    Memoize.call d inst args kw = .error .typeErrorUnhashable
  ↔ (inst.hashable = false ∨ (∃ a ∈ args, a.hashable = false)
      ∨ (∃ p ∈ kw, p.2.hashable = false)) := by
  rw [← hashableKey_false_iff]
  rw [Memoize.call, h]
  simp only [Bool.true_eq_false, if_false]
  cases hk : hashableKey inst args kw with
  | false => simp
  | true =>
    simp only [Bool.true_eq_false, if_false]
    constructor
    · intro hcall
      cases hl : lookupCache d.cache (inst, args, sortKw kw) with
      | some res => rw [hl] at hcall; cases hcall
      | none => rw [hl] at hcall; cases hcall
    · intro hfalse; cases hfalse

/-- Witness for claim C8's theorem at concrete inputs: a call whose only
positional argument is an unhashable object fails with the unhashable
`TypeError` (right side of the instantiated equivalence discharged by
computation). -/
theorem memoize_call_unhashable_iff_witness :
    (Memoize.init sampleFunc).memoize = true
  ∧ Memoize.call (Memoize.init sampleFunc) (.obj 0 true) [.obj 1 false] []
      = .error .typeErrorUnhashable :=
  ⟨rfl, (memoize_call_unhashable_iff (Memoize.init sampleFunc) (.obj 0 true)
      [.obj 1 false] [] rfl).2 (by simp [PyVal.hashable])⟩

/-- Claim C10, counterexample: `"__args"` is one of the proxy's internal
slots, yet writing to it from the initial proxy state also modifies the
wrapped function object — the source's `__setattr__` updates the slot and
then still forwards the write, because the conditional branch has no
early return.  This contradicts the claim that such a write updates only
the proxy's own slot and leaves the wrapped target unmodified. -/
theorem tp_setattr_slot_write_modifies_target :
    tp_setattr tpInit "__args" (.int 7)
      = { dict := [("__func", .obj 0 true), ("__args", .int 7), ("__kw", .obj 2 true)],
          funcAttrs := [("__args", .int 7)] }
  ∧ (tp_setattr tpInit "__args" (.int 7)).funcAttrs ≠ tpInit.funcAttrs := by
  constructor
  · rfl
  · intro h
    have h2 : ([(("__args" : String), PyVal.int 7)]) = ([] : List (String × PyVal)) := h
    simp at h2

/-- Claim C10, amended: every attribute write on the proxy is forwarded
to the wrapped target; when the attribute name additionally matches one
of the proxy's internal slots the proxy's own slot is updated as well
(the write is not confined to the proxy), and when it matches no slot the
proxy's own `__dict__` is left unchanged.  (Stated for names other than
the `"__func"` slot itself, whose overwrite would redirect subsequent
forwarding.) -/
theorem tp_setattr_forwards_and_updates_slot (s : TPAttrs) (key : String)
    (v : PyVal) (hk : key ≠ "__func") :
    (tp_setattr s key v).funcAttrs = setKey s.funcAttrs key v
  ∧ (hasKey s.dict key = true → (tp_setattr s key v).dict = setKey s.dict key v)
  ∧ (hasKey s.dict key = false → (tp_setattr s key v).dict = s.dict) := by
  refine ⟨rfl, ?_, ?_⟩
  · intro h
    simp [tp_setattr, h]
  · intro h
    simp [tp_setattr, h]

/-- Witness for claim C10's amended theorem at concrete inputs: a
non-slot name is forwarded to the target while the proxy's `__dict__`
stays as constructed. -/
theorem tp_setattr_forwards_and_updates_slot_witness :
    ("size" : String) ≠ "__func"
  ∧ hasKey tpInit.dict "size" = false
  ∧ (tp_setattr tpInit "size" (.int 3)).funcAttrs = setKey tpInit.funcAttrs "size" (.int 3)
  ∧ (tp_setattr tpInit "size" (.int 3)).dict = tpInit.dict :=
  ⟨by decide, by decide,
    (tp_setattr_forwards_and_updates_slot tpInit "size" (.int 3) (by decide)).1,
    (tp_setattr_forwards_and_updates_slot tpInit "size" (.int 3) (by decide)).2.2 (by decide)⟩
